import Mathlib

/-!
Verification of the dataset-preparation and prefetching pipeline of the WDSR
repository (src/dataset.py, src/config.py).

The development shallowly embeds the classes of src/dataset.py:

* TestImageDataset        - eager preload with synthetic low-resolution
                            companions (downsample-then-upsample round trip);
* TrainValidImageDataset  - the Train-mode crop stage of __getitem__
                            (the try/except around imgproc.random_crop);
* PrefetchGenerator       - the background worker pushing into a bounded
                            queue.Queue, modelled as a labelled transition
                            system over producer/consumer interleavings;
* CPUPrefetcher           - sequential next()/reset() over the get()-stream
                            of a PrefetchGenerator-backed loader;
* CUDAPrefetcher          - single-slot staged lookahead with next(),
                            preload() and reset().

Images are modelled at the level of their spatial dimensions: pixel content,
colour-space math and codecs are external collaborators of the core under
verification.  Machine floats do not occur in any property below; the resize
factor arithmetic is exact rational arithmetic.
-/

namespace WDSR

/-- A decoded image, modelled by its spatial dimensions (height, width).
Pixel content is owned by external collaborators (decode, colour-space
conversion) and plays no role in the verified properties. -/
structure Image where
  h : Nat
  w : Nat
deriving DecidableEq, Repr

/-- Errors that construction of a dataset can surface.
zeroDivisionError is what Python raises for 1 / 0; invalidScaleFactor is the
error named by the specification for a scale factor below 1. -/
inductive DatasetError where
  | invalidScaleFactor
  | zeroDivisionError
deriving DecidableEq, Repr

/-- Python integer division producing a rational, as in the expression
1 / self.upscale_factor: raises ZeroDivisionError when the divisor is 0. -/
def pyDiv (a b : Int) : Except DatasetError ℚ :=
  if b = 0 then .error .zeroDivisionError else .ok ((a : ℚ) / (b : ℚ))

/-- Modelled from the spec: imgproc.imresize (the resample collaborator of
section 6) is not under src/.  Resampling by a factor maps each spatial
dimension to the ceiling of the dimension times the factor, the standard
resampling output-size convention. -/
def imresize (img : Image) (f : ℚ) : Image :=
  ⟨((img.h : ℚ) * f).ceil.toNat, ((img.w : ℚ) * f).ceil.toNat⟩

/-- Crop failure raised by the augmentation collaborator. -/
inductive CropError where
  | cropTooLarge
deriving DecidableEq, Repr

/-- Modelled from the spec: imgproc.random_crop is not under src/.  The spec
says it fails with CropTooLarge if size exceeds either image's dimension,
and otherwise crops both images of the pair to size by size (the low and
high resolution images are equal-sized in this pipeline).  The random
offset does not affect output dimensions. -/
def random_crop (lr hr : Image) (size : Nat) :
    Except CropError (Image × Image) :=
  if lr.h < size ∨ lr.w < size ∨ hr.h < size ∨ hr.w < size then
    .error .cropTooLarge
  else
    .ok (⟨size, size⟩, ⟨size, size⟩)

/-- The Train-mode crop stage of TrainValidImageDataset.__getitem__
(src/dataset.py lines 66-70): imgproc.random_crop is attempted inside a
try/except whose handler only prints; on failure the original, un-cropped
pair flows on to the remaining augmentations. -/
def trainCropStage (lr hr : Image) (image_size : Nat) : Image × Image :=
  match random_crop lr hr image_size with
  | .ok out => out
  | .error _ => (lr, hr)

/-- TestImageDataset (src/dataset.py lines 125-187).  The directory listing
and image decoding are external; the model receives the decoded
high-resolution images directly. -/
structure TestImageDataset where
  image_file_names : List Image
  upscale_factor : Int
  lr_datasets : List Image
  hr_datasets : List Image
deriving DecidableEq, Repr

/-- TestImageDataset.read_image_to_memory (src/dataset.py lines 157-187):
for each high-resolution image, the low-resolution companion is
imresize(imresize(hr, 1 / upscale_factor), upscale_factor).  The division
1 / upscale_factor is Python division and raises on a zero factor. -/
def read_image_to_memory :
    List Image → Int → Except DatasetError (List Image × List Image)
  | [], _ => .ok ([], [])
  | hr :: rest, factor =>
    match pyDiv 1 factor with
    | .error e => .error e
    | .ok f =>
      match read_image_to_memory rest factor with
      | .error e => .error e
      | .ok (lrs, hrs) => .ok (imresize (imresize hr f) (factor : ℚ) :: lrs,
                               hr :: hrs)

/-- TestImageDataset.__init__ (src/dataset.py lines 133-145): records the
file listing and the scale factor, then eagerly preloads every image.  No
validation of the scale factor is performed. -/
def TestImageDataset.init (images : List Image) (upscale_factor : Int) :
    Except DatasetError TestImageDataset :=
  match read_image_to_memory images upscale_factor with
  | .error e => .error e
  | .ok (lrs, hrs) => .ok ⟨images, upscale_factor, lrs, hrs⟩

/-!
PrefetchGenerator (src/dataset.py lines 190-217).  The worker thread runs

    for item in self.generator: self.queue.put(item)
    self.queue.put(None)

against a queue.Queue of capacity num_data_prefetch_queue, while the consumer
calls self.queue.get() inside __next__ and raises StopIteration when the value
obtained is None.  Generator items are Python objects and may themselves be
None, so queue slots carry Option values: some a is an ordinary item, none is
the Python value None (also used as the end sentinel).  The
producer/consumer interleaving is a labelled transition system.
-/

/-- State of a PrefetchGenerator run: the items the generator has not yet
yielded, whether the trailing sentinel put is still owed, the queue contents
in FIFO order (head = oldest), and the values get() has returned so far. -/
structure QState (α : Type) where
  toProduce : List (Option α)
  sentinelPending : Bool
  buf : List (Option α)
  consumed : List (Option α)
deriving DecidableEq

/-- queue.Queue(maxsize) admits a put exactly when it is not full; Python
treats maxsize 0 (or below) as an unbounded queue. -/
def canPush (N : Nat) (buf : List (Option α)) : Prop :=
  N = 0 ∨ buf.length < N

instance (N : Nat) (buf : List (Option α)) : Decidable (canPush N buf) := by
  unfold canPush; infer_instance

/-- One interleaving step of the PrefetchGenerator system with queue
capacity N: the worker puts the next generator item (blocking while the
queue is full), the worker puts the final None sentinel after the generator
is exhausted, or the consumer gets the oldest queue entry. -/
inductive Step (N : Nat) : QState α → QState α → Prop
  | push (x : Option α) (rest : List (Option α)) (sp : Bool)
      (buf cons : List (Option α)) (hfree : canPush N buf) :
      Step N ⟨x :: rest, sp, buf, cons⟩ ⟨rest, sp, buf ++ [x], cons⟩
  | sentinel (buf cons : List (Option α)) (hfree : canPush N buf) :
      Step N ⟨[], true, buf, cons⟩ ⟨[], false, buf ++ [none], cons⟩
  | pop (tp : List (Option α)) (sp : Bool) (v : Option α)
      (rest cons : List (Option α)) :
      Step N ⟨tp, sp, v :: rest, cons⟩ ⟨tp, sp, rest, cons ++ [v]⟩

/-- The state at PrefetchGenerator.__init__: nothing produced or consumed. -/
def initState (input : List (Option α)) : QState α := ⟨input, true, [], []⟩

/-- All states some producer/consumer interleaving can reach. -/
def Reachable (N : Nat) (input : List (Option α)) (s : QState α) : Prop :=
  Relation.ReflTransGen (Step N) (initState input) s

/-- A fully drained run: the generator is exhausted, the sentinel has been
put, and the consumer has emptied the queue. -/
def Final (s : QState α) : Prop :=
  s.toProduce = [] ∧ s.sentinelPending = false ∧ s.buf = []

/-- The items a drain loop over the PrefetchGenerator receives: __next__
returns values obtained from the queue until the first None, which raises
StopIteration and ends the iteration. -/
def delivered (consumed : List (Option α)) : List (Option α) :=
  consumed.takeWhile Option.isSome

/-- Every value the worker will ever put, in order: the generator items
followed by the None sentinel.  This is the stream of values successive
get() calls return (a get beyond it blocks forever). -/
def pgStream (input : List (Option α)) : List (Option α) :=
  input ++ [none]

/-- The values the worker still owes the queue: remaining generator items,
then the sentinel if it has not been put yet. -/
def pendingPuts (s : QState α) : List (Option α) :=
  s.toProduce ++ (if s.sentinelPending then [none] else [])

/-!
CPUPrefetcher (src/dataset.py lines 236-257) over a PrefetchDataLoader
(lines 220-233): iter(dataloader) builds a PrefetchGenerator over the batch
iterator, and CPUPrefetcher.next returns next(self.data), translating
StopIteration into the return value None.
-/

/-- Outcome of one CPUPrefetcher.next() call: a batch, the value None
(StopIteration was caught: end of stream), or no return at all because
queue.get() blocks forever on an empty queue whose worker has terminated. -/
inductive CPUNextResult (α : Type) where
  | batch (a : α)
  | eos
  | blocked
deriving DecidableEq, Repr

/-- CPUPrefetcher state: the dataloader it was built over (whose batch
sequence is fixed and non-random), and the remaining get()-stream of the
current PrefetchGenerator iterator. -/
structure CPUPrefetcher (α : Type) where
  original_dataloader : List α
  data : List (Option α)
deriving DecidableEq

/-- CPUPrefetcher.__init__: store the dataloader and start an iterator over
it; iterating a PrefetchDataLoader spawns a PrefetchGenerator whose worker
will put every batch and then the None sentinel. -/
def CPUPrefetcher.init (dataloader : List α) : CPUPrefetcher α :=
  ⟨dataloader, pgStream (dataloader.map some)⟩

/-- CPUPrefetcher.next: next(self.data) performs queue.get(); a None value
raises StopIteration which the try/except turns into returning None; on an
exhausted stream the get() blocks forever. -/
def CPUPrefetcher.next : CPUPrefetcher α → CPUNextResult α × CPUPrefetcher α
  | ⟨dl, []⟩ => (.blocked, ⟨dl, []⟩)
  | ⟨dl, none :: rest⟩ => (.eos, ⟨dl, rest⟩)
  | ⟨dl, some a :: rest⟩ => (.batch a, ⟨dl, rest⟩)

/-- CPUPrefetcher.reset: self.data = iter(self.original_dataloader), giving
a fresh PrefetchGenerator stream over the same fixed batch sequence. -/
def CPUPrefetcher.reset (p : CPUPrefetcher α) : CPUPrefetcher α :=
  ⟨p.original_dataloader, pgStream (p.original_dataloader.map some)⟩

/-- The outcomes of k successive CPUPrefetcher.next() calls. -/
def cpuNexts : Nat → CPUPrefetcher α → List (CPUNextResult α)
  | 0, _ => []
  | k + 1, p =>
    let r := p.next
    r.1 :: cpuNexts k r.2

/-!
CUDAPrefetcher (src/dataset.py lines 260-300).  Its underlying iterator is a
plain DataLoader batch iterator, a well-behaved Python iterator: after
exhaustion every next() keeps raising StopIteration, modelled by an empty
remaining list.  The host-to-device copy maps a batch to itself here
(tensor payloads are opaque); the CUDA stream synchronisation itself is
real-time behaviour outside this embedding.  The fields fetched and
returned are ghost instrumentation counters: fetched counts batches pulled
from the underlying iterator since the current iteration began, returned
counts batches handed to the caller since then; neither influences
behaviour. -/
structure CUDAPrefetcher (α : Type) where
  batch_data : Option α
  original_dataloader : List α
  data : List α
  fetched : Nat
  returned : Nat
deriving DecidableEq

/-- CUDAPrefetcher.preload: pull the next batch from the iterator into the
single staging slot batch_data and begin its device transfer; on
StopIteration the slot becomes None. -/
def CUDAPrefetcher.preload (p : CUDAPrefetcher α) : CUDAPrefetcher α :=
  match p.data with
  | [] => { p with batch_data := none, data := [] }
  | a :: rest => { p with batch_data := some a, data := rest,
                          fetched := p.fetched + 1 }

/-- CUDAPrefetcher.__init__: store the dataloader, start an iterator, and
immediately preload the first batch. -/
def CUDAPrefetcher.init (dataloader : List α) : CUDAPrefetcher α :=
  CUDAPrefetcher.preload ⟨none, dataloader, dataloader, 0, 0⟩

/-- CUDAPrefetcher.next: wait for the staged transfer, hand the staged
batch to the caller, and preload the following batch - exactly one preload
per next() call. -/
def CUDAPrefetcher.next (p : CUDAPrefetcher α) :
    Option α × CUDAPrefetcher α :=
  (p.batch_data,
   CUDAPrefetcher.preload
     { p with returned := p.returned + (if p.batch_data.isSome then 1 else 0) })

/-- CUDAPrefetcher.reset: restart the iterator over the original dataloader
and preload the first batch; a fresh iteration, so the ghost counters
restart. -/
def CUDAPrefetcher.reset (p : CUDAPrefetcher α) : CUDAPrefetcher α :=
  CUDAPrefetcher.preload
    { p with data := p.original_dataloader, fetched := 0, returned := 0 }

/-- The values returned by k successive CUDAPrefetcher.next() calls. -/
def cudaNexts : Nat → CUDAPrefetcher α → List (Option α)
  | 0, _ => []
  | k + 1, p =>
    let r := p.next
    r.1 :: cudaNexts k r.2

/-- A consumer-visible operation on a CUDAPrefetcher. -/
inductive CUDAOp where
  | next
  | reset
deriving DecidableEq, Repr

/-- Apply one operation, discarding next()'s returned value. -/
def applyCUDAOp (p : CUDAPrefetcher α) : CUDAOp → CUDAPrefetcher α
  | .next => p.next.2
  | .reset => p.reset

/-- Run a sequence of next()/reset() calls from a given state. -/
def runCUDAOps (p : CUDAPrefetcher α) : List CUDAOp → CUDAPrefetcher α
  | [] => p
  | op :: ops => runCUDAOps (applyCUDAOp p op) ops

/-- The single-step-lookahead accounting invariant of CUDAPrefetcher: the
batches pulled from the underlying iterator in the current iteration are
the batches already returned plus the one currently staged, if any. -/
def lookaheadInv (p : CUDAPrefetcher α) : Prop :=
  p.fetched = p.returned + (if p.batch_data.isSome then 1 else 0)

example : imresize ⟨64, 64⟩ (1 / 2) = ⟨32, 32⟩ := by with_unfolding_all rfl
example : imresize ⟨32, 32⟩ 2 = ⟨64, 64⟩ := by with_unfolding_all rfl
example : TestImageDataset.init [] 0 = .ok ⟨[], 0, [], []⟩ := rfl

example :
    cpuNexts 4 (CPUPrefetcher.init [10, 20]) =
      [.batch 10, .batch 20, .eos, .blocked] := by decide
example :
    cudaNexts 4 (CUDAPrefetcher.init [7, 8]) =
      [some 7, some 8, none, none] := by decide

lemma step_inv {N : Nat} {s t : QState α} (h : Step N s t) :
    t.consumed ++ t.buf ++ pendingPuts t =
      s.consumed ++ s.buf ++ pendingPuts s := by
  cases h <;> simp [pendingPuts]

/-- FIFO conservation: along every interleaving, the values already
consumed, the queue contents and the values still to be put always
concatenate to the generator items followed by the sentinel. -/
lemma reachable_inv {N : Nat} {input : List (Option α)} {s : QState α}
    (h : Reachable N input s) :
    s.consumed ++ s.buf ++ pendingPuts s = input ++ [none] := by
  induction h with
  | refl => simp [initState, pendingPuts]
  | tail hab hstep ih =>
    rw [step_inv hstep]
    exact ih

/-- In a fully drained run the consumer has obtained exactly the generator
items followed by the sentinel, in order. -/
lemma final_consumed {N : Nat} {input : List (Option α)} {s : QState α}
    (h : Reachable N input s) (hf : Final s) :
    s.consumed = input ++ [none] := by
  obtain ⟨h1, h2, h3⟩ := hf
  have hinv := reachable_inv h
  simp [pendingPuts, h1, h2, h3] at hinv
  exact hinv

lemma step_buf_le {N : Nat} {s t : QState α} (hN : 1 ≤ N) (h : Step N s t)
    (hs : s.buf.length ≤ N) : t.buf.length ≤ N := by
  cases h with
  | push x rest sp buf cons hfree =>
    rcases hfree with h0 | hlt
    · omega
    · simpa using hlt
  | sentinel buf cons hfree =>
    rcases hfree with h0 | hlt
    · omega
    · simpa using hlt
  | pop tp sp v rest cons =>
    simp at hs ⊢
    omega

lemma reachable_buf_le {N : Nat} {input : List (Option α)} {s : QState α}
    (hN : 1 ≤ N) (h : Reachable N input s) : s.buf.length ≤ N := by
  induction h with
  | refl => simp [initState]
  | tail hab hstep ih =>
    exact step_buf_le hN hstep ih

lemma takeWhile_isSome_append_none (l : List (Option α)) :
    (l ++ [(none : Option α)]).takeWhile Option.isSome =
      l.takeWhile Option.isSome := by
  induction l with
  | nil => simp
  | cons x xs ih => cases x <;> simp [List.takeWhile_cons, ih]

lemma takeWhile_isSome_map_some (items : List α) :
    (items.map some).takeWhile Option.isSome = items.map some := by
  induction items with
  | nil => simp
  | cons x xs ih => simp [List.takeWhile_cons, ih]

/-- Claim C1, counterexample: the delivered-equals-input property fails for
an input sequence that contains the Python value None as an item.  On the
input consisting of the single item None, with capacity 1, a complete
producer/consumer interleaving reaches the drained state having consumed
two None values, yet the drain loop delivered nothing while the direct
drain of the sequence yields its one item. -/
theorem C1_counterexample :
    ¬ (∀ (input : List (Option Nat)) (N : Nat) (s : QState Nat),
        Reachable N input s → Final s → delivered s.consumed = input) := by
  intro hclaim
  have hreach : Reachable 1 [(none : Option Nat)]
      (QState.mk [] false [] [none, none]) := by
    refine Relation.ReflTransGen.head
      (Step.push none [] true [] [] (Or.inr (by decide))) ?_
    refine Relation.ReflTransGen.head (Step.pop [] true none [] []) ?_
    refine Relation.ReflTransGen.head
      (Step.sentinel [] [none] (Or.inr (by decide))) ?_
    exact Relation.ReflTransGen.single (Step.pop [] false none [] [none])
  exact (by decide : delivered [(none : Option Nat), none] ≠ [none])
    (hclaim [none] 1 _ hreach ⟨rfl, rfl, rfl⟩)

/-- Claim C1, amended: for every finite input sequence none of whose items
is the sentinel value None, every complete interleaving of the
PrefetchGenerator worker and the consuming drain loop delivers exactly the
input items in exactly the input order. -/
theorem C1_fifo_refinement (items : List α) (N : Nat) (s : QState α)
    (hs : Reachable N (items.map some) s) (hf : Final s) :
    delivered s.consumed = items.map some := by
  rw [delivered, final_consumed hs hf, takeWhile_isSome_append_none,
      takeWhile_isSome_map_some]

/-- Claim C1, witness: a complete capacity-2 run over the two-item input
delivers both items in order. -/
theorem C1_fifo_refinement_witness :
    delivered (QState.mk [] false [] [some 1, some 2, none] : QState Nat).consumed
      = ([1, 2] : List Nat).map some :=
  C1_fifo_refinement [1, 2] 2 _
    (Relation.ReflTransGen.head
      (Step.push (some 1) [some 2] true [] [] (Or.inr (by decide)))
      (Relation.ReflTransGen.head
        (Step.push (some 2) [] true [some 1] [] (Or.inr (by decide)))
        (Relation.ReflTransGen.head
          (Step.pop [] true (some 1) [some 2] [])
          (Relation.ReflTransGen.head
            (Step.pop [] true (some 2) [] [some 1])
            (Relation.ReflTransGen.head
              (Step.sentinel [] [some 1, some 2] (Or.inr (by decide)))
              (Relation.ReflTransGen.single
                (Step.pop [] false none [] [some 1, some 2])))))))
    ⟨rfl, rfl, rfl⟩

/-- Claim C2: with queue capacity N at least 1, in every state reachable by
any interleaving the queue holds at most N un-consumed values, and nothing
is ever dropped: a completely drained run has consumed exactly the input
items followed by the sentinel. -/
theorem C2_bounded_capacity (input : List (Option α)) (N : Nat)
    (s : QState α) (hN : 1 ≤ N) (hs : Reachable N input s) :
    s.buf.length ≤ N ∧ (Final s → s.consumed = input ++ [none]) :=
  ⟨reachable_buf_le hN hs, fun hf => final_consumed hs hf⟩

/-- Claim C2, witness: after the worker pushed the first of two items into
a capacity-1 queue, the queue length is within the bound. -/
theorem C2_bounded_capacity_witness :
    (QState.mk [some 4] true [some 3] [] : QState Nat).buf.length ≤ 1 ∧
      (Final (QState.mk [some 4] true [some 3] [] : QState Nat) →
        (QState.mk [some 4] true [some 3] [] : QState Nat).consumed =
          [some 3, some 4] ++ [none]) :=
  C2_bounded_capacity [some 3, some 4] 1 _ (by decide)
    (Relation.ReflTransGen.single
      (Step.push (some 3) [some 4] true [] [] (Or.inr (by decide))))

/-- Claim C3: with 5 preloaded batches behind a queue-backed loader, the
first five CPUPrefetcher.next() calls return the batches and the sixth
returns the None end-of-stream value; but the seventh call does not return
End-of-Stream again: it blocks forever inside queue.get(), because the
drained final state of the worker/queue system admits no further step that
could ever wake the consumer. -/
theorem C3_seventh_next_blocks :
    cpuNexts 7 (CPUPrefetcher.init ([1, 2, 3, 4, 5] : List Nat)) =
      [.batch 1, .batch 2, .batch 3, .batch 4, .batch 5, .eos, .blocked] ∧
    ∀ t : QState Nat,
      ¬ Step 2 ⟨[], false, [], pgStream (([1, 2, 3, 4, 5] : List Nat).map some)⟩ t := by
  refine ⟨by decide, ?_⟩
  intro t h
  cases h

/-- Claim C10: for every input sequence and every complete interleaving,
the drain loop over the PrefetchGenerator delivers exactly the longest
None-free prefix of the input: the first None item is indistinguishable
from the end sentinel and ends the iteration, and no later item is
delivered to the drain loop. -/
theorem C10_none_truncates_stream (input : List (Option α)) (N : Nat)
    (s : QState α) (hs : Reachable N input s) (hf : Final s) :
    delivered s.consumed = input.takeWhile Option.isSome := by
  rw [delivered, final_consumed hs hf, takeWhile_isSome_append_none]

/-- Claim C10, witness: a complete capacity-3 run over an input whose
second item is None delivers only the first item. -/
theorem C10_none_truncates_stream_witness :
    delivered
        (QState.mk [] false [] [some 5, none, some 6, none] : QState Nat).consumed
      = ([some 5, none, some 6] : List (Option Nat)).takeWhile Option.isSome :=
  C10_none_truncates_stream [some 5, none, some 6] 3 _
    (Relation.ReflTransGen.head
      (Step.push (some 5) [none, some 6] true [] [] (Or.inr (by decide)))
      (Relation.ReflTransGen.head
        (Step.push none [some 6] true [some 5] [] (Or.inr (by decide)))
        (Relation.ReflTransGen.head
          (Step.push (some 6) [] true [some 5, none] [] (Or.inr (by decide)))
          (Relation.ReflTransGen.head
            (Step.pop [] true (some 5) [none, some 6] [])
            (Relation.ReflTransGen.head
              (Step.sentinel [none, some 6] [some 5] (Or.inr (by decide)))
              (Relation.ReflTransGen.head
                (Step.pop [] false none [some 6, none] [some 5])
                (Relation.ReflTransGen.head
                  (Step.pop [] false (some 6) [none] [some 5, none])
                  (Relation.ReflTransGen.single
                    (Step.pop [] false none [] [some 5, none, some 6])))))))))
    ⟨rfl, rfl, rfl⟩

lemma lookaheadInv_init (dl : List α) : lookaheadInv (CUDAPrefetcher.init dl) := by
  cases dl <;> simp [CUDAPrefetcher.init, CUDAPrefetcher.preload, lookaheadInv]

lemma lookaheadInv_applyOp {p : CUDAPrefetcher α} (h : lookaheadInv p)
    (op : CUDAOp) : lookaheadInv (applyCUDAOp p op) := by
  unfold lookaheadInv at h
  cases op with
  | next =>
    cases hb : p.batch_data <;> cases hd : p.data <;>
      simp [lookaheadInv, applyCUDAOp, CUDAPrefetcher.next,
        CUDAPrefetcher.preload, hb, hd] <;>
      simp [hb] at h <;> omega
  | reset =>
    cases hod : p.original_dataloader <;>
      simp [lookaheadInv, applyCUDAOp, CUDAPrefetcher.reset,
        CUDAPrefetcher.preload, hod]

lemma lookaheadInv_run (p : CUDAPrefetcher α) (h : lookaheadInv p)
    (ops : List CUDAOp) : lookaheadInv (runCUDAOps p ops) := by
  induction ops generalizing p with
  | nil => exact h
  | cons op ops ih => exact ih _ (lookaheadInv_applyOp h op)

/-- Claim C6: along every sequence of next() and reset() calls on a
CUDAPrefetcher, the batches pulled from the underlying iterator during the
current iteration are exactly the batches already returned to the caller
plus the single currently staged batch; in particular the lookahead never
exceeds one batch. -/
theorem C6_single_step_lookahead (dl : List α) (ops : List CUDAOp) :
    (runCUDAOps (CUDAPrefetcher.init dl) ops).fetched =
      (runCUDAOps (CUDAPrefetcher.init dl) ops).returned +
        (if (runCUDAOps (CUDAPrefetcher.init dl) ops).batch_data.isSome
         then 1 else 0) ∧
    (runCUDAOps (CUDAPrefetcher.init dl) ops).fetched ≤
      (runCUDAOps (CUDAPrefetcher.init dl) ops).returned + 1 := by
  have hinv := lookaheadInv_run (CUDAPrefetcher.init dl)
    (lookaheadInv_init dl) ops
  unfold lookaheadInv at hinv
  refine ⟨hinv, ?_⟩
  rw [hinv]
  split <;> omega

/-- Claim C7: once CUDAPrefetcher staging has found no further batches (the
staging slot is empty and the underlying iterator is exhausted), every one
of the following k next() calls returns the none value, for every k, until
a reset() intervenes. -/
theorem C7_eos_latching (p : CUDAPrefetcher α) (k : Nat)
    (hb : p.batch_data = none) (hd : p.data = []) :
    cudaNexts k p = List.replicate k none := by
  induction k generalizing p with
  | zero => simp [cudaNexts]
  | succ k ih =>
    simp only [cudaNexts]
    have h1 : p.next.1 = none := by simp [CUDAPrefetcher.next, hb]
    have h2 : p.next.2.batch_data = none := by
      simp [CUDAPrefetcher.next, CUDAPrefetcher.preload, hd]
    have h3 : p.next.2.data = [] := by
      simp [CUDAPrefetcher.next, CUDAPrefetcher.preload, hd]
    rw [h1, ih _ h2 h3, List.replicate]

/-- Claim C7, witness: a CUDAPrefetcher that has exhausted a one-batch
loader keeps answering none on three further next() calls. -/
theorem C7_eos_latching_witness :
    cudaNexts 3 (CUDAPrefetcher.mk none [1] [] 1 1 : CUDAPrefetcher Nat) =
      List.replicate 3 none :=
  C7_eos_latching _ 3 rfl rfl

/-- Claim C9: after reset(), draining via next() produces, call for call,
the same outputs as the first drain of a freshly constructed prefetcher
over the same fixed dataloader, for the CPUPrefetcher and for the
CUDAPrefetcher, whatever state the prefetcher had reached before the
reset(). -/
theorem C9_reset_reproduces_drain (p : CPUPrefetcher α)
    (q : CUDAPrefetcher α) (k : Nat) :
    cpuNexts k p.reset = cpuNexts k (CPUPrefetcher.init p.original_dataloader) ∧
    cudaNexts k q.reset = cudaNexts k (CUDAPrefetcher.init q.original_dataloader) := by
  constructor
  · rfl
  · have hq : q.reset = CUDAPrefetcher.init q.original_dataloader := by
      cases hod : q.original_dataloader <;>
        simp [CUDAPrefetcher.reset, CUDAPrefetcher.init,
          CUDAPrefetcher.preload, hod]
    rw [hq]

/-- Claim C4: in Train mode a crop size larger than the image is a
CropTooLarge failure of imgproc.random_crop, but
TrainValidImageDataset.__getitem__ swallows the exception (printing only)
and passes the offending sample through un-cropped: with a 30 by 30 pair
and crop size 41, the crop stage returns the original images. -/
theorem C4_crop_failure_passthrough :
    random_crop ⟨30, 30⟩ ⟨30, 30⟩ 41 = .error .cropTooLarge ∧
    trainCropStage ⟨30, 30⟩ ⟨30, 30⟩ 41 = (⟨30, 30⟩, ⟨30, 30⟩) :=
  ⟨rfl, rfl⟩

/-- Construction of TestImageDataset can only fail inside the preload loop,
and the only failure there is the division 1 / upscale_factor. -/
lemma read_image_to_memory_no_invalid (images : List Image) (sf : Int) :
    read_image_to_memory images sf ≠ .error .invalidScaleFactor := by
  induction images with
  | nil => simp [read_image_to_memory]
  | cons hr rest ih =>
    unfold read_image_to_memory pyDiv
    by_cases h0 : sf = 0
    · simp [h0]
    · simp only [h0, if_false]
      cases hrec : read_image_to_memory rest sf with
      | error e =>
        rw [hrec] at ih
        simpa [hrec] using fun hcontra => ih (by rw [hcontra])
      | ok pair => simp [hrec]

/-- Claim C5, counterexample: constructing a TestImageDataset with a scale
factor below 1 does not fail with InvalidScaleFactor; with an empty image
directory and scale factor 0 the construction even succeeds. -/
theorem C5_counterexample :
    ¬ (∀ (images : List Image) (sf : Int), sf < 1 →
        TestImageDataset.init images sf = .error .invalidScaleFactor) := by
  intro h
  have h0 := h [] 0 (by decide)
  rw [show TestImageDataset.init [] 0 = Except.ok ⟨[], 0, [], []⟩ from rfl] at h0
  simp at h0

/-- Claim C5, amended: TestImageDataset.__init__ performs no scale-factor
validation at all: no construction ever fails with InvalidScaleFactor; a
scale factor of 0 over a non-empty directory instead fails with Python's
ZeroDivisionError when the preload evaluates 1 / upscale_factor. -/
theorem C5_no_scale_validation (images : List Image) (img : Image)
    (sf : Int) :
    TestImageDataset.init images sf ≠ .error .invalidScaleFactor ∧
    TestImageDataset.init (img :: images) 0 = .error .zeroDivisionError := by
  constructor
  · unfold TestImageDataset.init
    cases hread : read_image_to_memory images sf with
    | error e =>
      have := read_image_to_memory_no_invalid images sf
      rw [hread] at this
      simpa using fun hcontra => this (by rw [hcontra])
    | ok pair => simp [hread]
  · simp [TestImageDataset.init, read_image_to_memory, pyDiv]

lemma ratCeil_natCast (n : Nat) : ((n : ℚ)).ceil = (n : Int) := by
  unfold Rat.ceil
  simp [Rat.den_natCast, Rat.num_natCast]

/-- One spatial dimension through the downsample-then-upsample round trip:
when the scale divides the dimension, resampling by 1 over the scale and
back by the scale restores the dimension exactly. -/
lemma dim_roundtrip (d s : Nat) (hs : 1 ≤ s) (hd : s ∣ d) :
    (((((d : ℚ) * (((1 : Int) : ℚ) / ((s : Int) : ℚ))).ceil.toNat : ℚ))
        * ((s : Int) : ℚ)).ceil.toNat = d := by
  obtain ⟨k, rfl⟩ := hd
  have hs0 : (s : ℚ) ≠ 0 := Nat.cast_ne_zero.mpr (by omega)
  have e1 : ((s * k : Nat) : ℚ) * (((1 : Int) : ℚ) / ((s : Int) : ℚ))
      = ((k : Nat) : ℚ) := by
    push_cast
    field_simp
  rw [e1, ratCeil_natCast, Int.toNat_natCast]
  have e2 : ((k : Nat) : ℚ) * ((s : Int) : ℚ) = ((s * k : Nat) : ℚ) := by
    push_cast
    ring
  rw [e2, ratCeil_natCast, Int.toNat_natCast]

lemma imresize_roundtrip (img : Image) (s : Nat) (hs : 1 ≤ s)
    (hh : s ∣ img.h) (hw : s ∣ img.w) :
    imresize (imresize img (((1 : Int) : ℚ) / ((s : Int) : ℚ)))
      ((s : Int) : ℚ) = img := by
  obtain ⟨h, w⟩ := img
  simp only [imresize, Image.mk.injEq]
  exact ⟨dim_roundtrip h s hs hh, dim_roundtrip w s hs hw⟩

lemma init_divisible_roundtrip (img : Image) (s : Nat) (hs : 1 ≤ s)
    (hh : s ∣ img.h) (hw : s ∣ img.w) :
    TestImageDataset.init [img] (s : Int) =
      .ok ⟨[img], (s : Int), [img], [img]⟩ := by
  have hpy : pyDiv 1 (s : Int) = .ok (((1 : Int) : ℚ) / ((s : Int) : ℚ)) := by
    unfold pyDiv
    rw [if_neg (by omega : ¬ (s : Int) = 0)]
  unfold TestImageDataset.init read_image_to_memory
  rw [hpy]
  show (Except.ok (TestImageDataset.mk [img] (s : Int)
        [imresize (imresize img (((1 : Int) : ℚ) / ((s : Int) : ℚ)))
          ((s : Int) : ℚ)] [img]) :
      Except DatasetError TestImageDataset) =
    Except.ok (TestImageDataset.mk [img] (s : Int) [img] [img])
  rw [imresize_roundtrip img s hs hh hw]

/-- Claim C8: the synthetic sample source produces its low-resolution
companion by resampling down by 1 over the scale and back up by the scale,
landing at the original resolution whenever the scale divides the
dimensions; in the spec scenario, a 64 by 64 source at scale 2 yields a 64
by 64 companion (via a 32 by 32 intermediate), not a 32 by 32 one. -/
theorem C8_synthetic_companion_resolution (img : Image) (s : Nat)
    (hs : 1 ≤ s) (hh : s ∣ img.h) (hw : s ∣ img.w) :
    TestImageDataset.init [img] (s : Int) =
      .ok ⟨[img], (s : Int), [img], [img]⟩ ∧
    (TestImageDataset.init [Image.mk 64 64] 2 =
        .ok ⟨[⟨64, 64⟩], 2, [⟨64, 64⟩], [⟨64, 64⟩]⟩ ∧
      imresize ⟨64, 64⟩ (1 / 2) = ⟨32, 32⟩ ∧
      Image.mk 64 64 ≠ ⟨32, 32⟩) := by
  refine ⟨init_divisible_roundtrip img s hs hh hw, ?_,
    by with_unfolding_all rfl, by decide⟩
  have h64 := init_divisible_roundtrip ⟨64, 64⟩ 2 (by omega)
    (by decide) (by decide)
  simpa using h64

/-- Claim C8, witness: the 64 by 64 image at scale 2 instantiates the
round-trip theorem. -/
theorem C8_synthetic_companion_resolution_witness :
    TestImageDataset.init [Image.mk 64 64] ((2 : Nat) : Int) =
      .ok ⟨[⟨64, 64⟩], ((2 : Nat) : Int), [⟨64, 64⟩], [⟨64, 64⟩]⟩ ∧
    (TestImageDataset.init [Image.mk 64 64] 2 =
        .ok ⟨[⟨64, 64⟩], 2, [⟨64, 64⟩], [⟨64, 64⟩]⟩ ∧
      imresize ⟨64, 64⟩ (1 / 2) = ⟨32, 32⟩ ∧
      Image.mk 64 64 ≠ ⟨32, 32⟩) :=
  C8_synthetic_companion_resolution ⟨64, 64⟩ 2 (by decide) (by decide)
    (by decide)

end WDSR
